import Mathlib

/-!
Verification development for `generate_quarto_nav.py`: a generator that turns a
flat navigation table (nodes.csv) into a Quarto `_quarto.yml` (navbar + sidebars)
and creates/refreshes page `.qmd` files.

The Python source is shallowly embedded below.  Rows arrive here already
normalized (the source function `normalize_row_keys` lowercases/strips keys and
strips values); a row is an association list from column name to string value.
Python dictionaries of nodes are embedded as `List Node` searched by id
(Python dict iteration order = insertion order = list order).  File system
state is an association list from path to file content, and printed output is
returned as a list of message strings.  The unbounded `while` walk over
`parent_id` links in `compute_default_file_path` is embedded with an explicit
fuel argument, since the source loop has no termination guarantee on cyclic
parent links.
-/

namespace GQNav

/-- One row of a CSV file after `normalize_row_keys`: keys lowercased and
stripped, values stripped.  Missing key and empty value are both read as `""`,
matching `row.get(k, "")` on the normalized dict. -/
abbrev Row := List (String × String)

/-- `row.get(k, "")` on a normalized row. -/
def rowGet (row : Row) (k : String) : String := (List.lookup k row).getD ""

/-- Characters Python regex `\s` matches (ASCII range, as produced by CSV text). -/
def isSpaceChar (c : Char) : Bool :=
  c = ' ' || c = '\t' || c = '\n' || c = '\r' || c = '\x0b' || c = '\x0c'

/-- Python `str.lower()` (ASCII letters, as `Char.toLower` maps), written over
the character list so that it evaluates by structural recursion. -/
def strLower (s : String) : String := String.mk (s.data.map Char.toLower)

/-- Python `str.strip()`: drop leading and trailing whitespace. -/
def pyStrip (s : String) : String :=
  String.mk (((s.data.dropWhile isSpaceChar).reverse.dropWhile isSpaceChar).reverse)

/-- Python `str.rstrip()`: drop trailing whitespace. -/
def pyRstrip (s : String) : String :=
  String.mk ((s.data.reverse.dropWhile isSpaceChar).reverse)

/-- First `n` characters of a string (`f.read(n)` on a text file). -/
def strTake (s : String) (n : Nat) : String := String.mk (s.data.take n)

/-- Python `str.endswith(suffix)`. -/
def strEndsWith (s suffix : String) : Bool := suffix.data.isSuffixOf s.data

/-- Lexicographic less-or-equal on code points: Python string comparison. -/
def charListLE : List Char → List Char → Bool
  | [], _ => true
  | _ :: _, [] => false
  | a :: as, b :: bs =>
    if a.toNat < b.toNat then true
    else if b.toNat < a.toNat then false
    else charListLE as bs

/-- Python `a <= b` on strings. -/
def strLE (a b : String) : Bool := charListLE a.data b.data

/-- Characters kept by the slugify filter `[^a-z0-9\-_\s]+ -> ""` (after lowercasing). -/
def slugKeep (c : Char) : Bool :=
  ('a' ≤ c && c ≤ 'z') || ('0' ≤ c && c ≤ '9') || c = '-' || c = '_' || isSpaceChar c

/-- Replace each maximal whitespace run with one hyphen (`re.sub(r"[\s]+", "-", text)`).
The boolean tracks whether the previous character was whitespace. -/
def collapseWs : List Char → Bool → List Char
  | [], _ => []
  | c :: rest, inWs =>
    if isSpaceChar c then
      if inWs then collapseWs rest true else '-' :: collapseWs rest true
    else c :: collapseWs rest false

/-- `str.strip("-")`: drop leading and trailing hyphens. -/
def stripHyphens (cs : List Char) : List Char :=
  ((cs.dropWhile (· = '-')).reverse.dropWhile (· = '-')).reverse

/-- `slugify` from the source: lowercase, drop characters outside
`[a-z0-9\-_\s]`, collapse whitespace runs to single hyphens, strip hyphens,
fall back to "page" when empty. -/
def slugify (text : String) : String :=
  let t := ((strLower text).data.filter slugKeep)
  let t := stripHyphens (collapseWs t false)
  if t.isEmpty then "page" else String.mk t

/-- `s.isdigit()` (ASCII digits; nonempty). -/
def isDigitStr (s : String) : Bool := !s.isEmpty && s.data.all Char.isDigit

/-- `int(s)` for a string of decimal digits. -/
def decimalValue (s : String) : Nat :=
  s.data.foldl (fun n c => 10 * n + (c.toNat - 48)) 0

/-- One navigation entry, as built by `read_nodes` (the dict literal at
lines 125-139 of the source). -/
structure Node where
  id : String
  parent_id : String
  label : String
  slug : String
  kind : String
  file_path : String
  order : Nat
  description : String
  draft : String
  search_exclude : String
  external_url : String
  icon : String
  sidebar_as : String
deriving DecidableEq, Repr, Inhabited

/-- The node construction from a raw row (source lines 125-139):
slug defaults to `slugify(label)`, order to 999 unless the field is all
digits, `sidebar_as` is lowercased. -/
def constructNode (row : Row) : Node :=
  { id := rowGet row "id"
    parent_id := rowGet row "parent_id"
    label := rowGet row "label"
    slug := if rowGet row "slug" = "" then slugify (rowGet row "label") else rowGet row "slug"
    kind := rowGet row "kind"
    file_path := rowGet row "file_path"
    order := if isDigitStr (rowGet row "order") then decimalValue (rowGet row "order") else 999
    description := rowGet row "description"
    draft := rowGet row "draft"
    search_exclude := rowGet row "search_exclude"
    external_url := rowGet row "external_url"
    icon := rowGet row "icon"
    sidebar_as := strLower (rowGet row "sidebar_as") }

/-- `nodes[nid]` lookup on the embedded node dict. -/
def findNode (nodes : List Node) (nid : String) : Option Node :=
  nodes.find? (fun m => m.id == nid)

/-- The fatal errors `read_nodes` and `main` can raise.  Each constructor
carries the data interpolated into the corresponding Python message. -/
inductive NavError where
  | missingFields (lineNo : Nat) (missing : List String)
  | duplicateId (id : String) (lineNo : Nat)
  | parentNotFound (parentId : String) (nodeId : String)
  | noRoots
deriving DecidableEq, Repr

/-- The line number carried by an error message, when one is. -/
def errLine : NavError → Option Nat
  | .missingFields l _ => some l
  | .duplicateId _ l => some l
  | _ => none

/-- The offending node ids carried by an error message. -/
def errIds : NavError → List String
  | .duplicateId i _ => [i]
  | .parentNotFound pid nid => [pid, nid]
  | _ => []

/-- A row is skipped when every value is blank (source line 117; values are
already stripped by normalization). -/
def rowIsBlank (row : Row) : Bool := row.all (fun kv => kv.2 = "")

/-- The required columns that are empty on a row (source line 119; the source
iterates a Python set, we fix the order id, label, kind). -/
def requiredMissing (row : Row) : List String :=
  ["id", "label", "kind"].filter (fun c => rowGet row c = "")

/-- First pass of `read_nodes` (source lines 113-140): walk the rows keeping a
line counter, skip blank rows, reject rows with missing required columns or a
duplicate id, and accumulate constructed nodes in order. -/
def readRows : List Row → Nat → List Node → Except NavError (List Node)
  | [], _, acc => .ok acc
  | row :: rest, lineNo, acc =>
    if rowIsBlank row then readRows rest (lineNo + 1) acc
    else if requiredMissing row ≠ [] then .error (.missingFields lineNo (requiredMissing row))
    else if (findNode acc (rowGet row "id")).isSome then
      .error (.duplicateId (rowGet row "id") lineNo)
    else readRows rest (lineNo + 1) (acc ++ [constructNode row])

/-- Second pass of `read_nodes` (source lines 141-145): every non-empty
`parent_id` must reference an existing node; the first failure aborts. -/
def checkParents (nodes : List Node) : List Node → Except NavError Unit
  | [] => .ok ()
  | n :: rest =>
    if n.parent_id ≠ "" ∧ (findNode nodes n.parent_id).isNone then
      .error (.parentNotFound n.parent_id n.id)
    else checkParents nodes rest

/-- `read_nodes` (node construction and validation; the children mapping that
the source returns alongside is exposed as `childrenMap` below).  Data rows
start at line 2, after the header. -/
def read_nodes (rows : List Row) : Except NavError (List Node) :=
  match readRows rows 2 [] with
  | .error e => .error e
  | .ok nodes =>
    match checkParents nodes nodes with
    | .error e => .error e
    | .ok _ => .ok nodes

/-- The sibling sort key `(nodes[nid]["order"], nodes[nid]["label"].lower())`
(source line 148).  Ids in a children bucket always resolve; the default pair
is never reached on validated input. -/
def sibKey (nodes : List Node) (nid : String) : Nat × String :=
  match findNode nodes nid with
  | some n => (n.order, strLower n.label)
  | none => (0, "")

/-- Sibling comparison: order ascending, then lowercased label ascending. -/
def SibLE (nodes : List Node) (a b : String) : Prop :=
  (sibKey nodes a).1 < (sibKey nodes b).1 ∨
    ((sibKey nodes a).1 = (sibKey nodes b).1 ∧ strLE (sibKey nodes a).2 (sibKey nodes b).2 = true)

instance (nodes : List Node) : DecidableRel (SibLE nodes) := fun a b => by
  unfold SibLE; infer_instance

/-- The children mapping built by `read_nodes` (source lines 146-148): the ids
whose node has `parent_id = pid`, in insertion order, sorted stably by
`sibKey`.  The source materializes a `defaultdict`; we embed it as the lookup
function it supports (`children.get(pid, [])`), noting that a stable ascending
sort of the insertion-order bucket is exactly `insertionSort` with the
non-strict key comparison. -/
def childrenMap (nodes : List Node) (pid : String) : List String :=
  if pid = "" then []
  else ((nodes.filter (fun n => n.parent_id == pid)).map Node.id).insertionSort (SibLE nodes)

/-- Root comparison used on navbar roots (source lines 305, 485-486). -/
def rootLE (a b : Node) : Prop :=
  a.order < b.order ∨ (a.order = b.order ∧ strLE (strLower a.label) (strLower b.label) = true)

instance : DecidableRel rootLE := fun a b => by
  unfold rootLE; infer_instance

/-- `find_roots` filter: root nodes are exactly those with empty `parent_id`
and kind `navbar` (source line 152). -/
def find_roots (nodes : List Node) : List Node :=
  nodes.filter (fun n => n.parent_id == "" && n.kind == "navbar")

/-- `"/".join(parts)`. -/
def joinSlash : List String → String
  | [] => ""
  | [x] => x
  | x :: y :: rest => x ++ "/" ++ joinSlash (y :: rest)

/-- The `while pid:` ancestor walk of `compute_default_file_path`
(source lines 159-162), collecting ancestor slugs nearest-parent first.  The
source loop is unbounded; `fuel` bounds the embedded walk, and the walk of a
well-founded parent chain is independent of any sufficient fuel (see the
termination theorems). -/
def ancestorSlugs (nodes : List Node) : Nat → String → List String
  | 0, _ => []
  | fuel + 1, pid =>
    if pid = "" then []
    else
      match findNode nodes pid with
      | none => []
      | some p => p.slug :: ancestorSlugs nodes fuel p.parent_id

/-- The parent chain from `pid` up to a root: the list of ancestor slugs
collected nearest-parent first, witnessing that successive `parent_id` links
reach an empty `parent_id` in finitely many steps. -/
inductive AncChain (nodes : List Node) : String → List String → Prop where
  | nil : AncChain nodes "" []
  | cons (pid : String) (p : Node) (rest : List String) :
      pid ≠ "" → findNode nodes pid = some p →
      AncChain nodes p.parent_id rest → AncChain nodes pid (p.slug :: rest)

/-- `compute_default_file_path` (source lines 154-168).  The source receives
the node id and looks it up (and takes an unused `children` argument); the
embedding receives the node itself.  External nodes get `""`; navbar, landing
and section nodes get `<root-first slugs>/<own slug>/index.qmd`; any other
kind (item) gets `<root-first ancestor slugs>/<own slug>.qmd`. -/
def compute_default_file_path (nodes : List Node) (fuel : Nat) (n : Node) : String :=
  if n.kind = "external" then ""
  else
    let path_slugs := (n.slug :: ancestorSlugs nodes fuel n.parent_id).reverse
    if n.kind = "navbar" ∨ n.kind = "landing" ∨ n.kind = "section" then
      joinSlash (path_slugs ++ ["index.qmd"])
    else
      joinSlash (path_slugs.dropLast ++ [n.slug ++ ".qmd"])

/-- The per-node body of `ensure_paths` (source lines 170-175): refresh an
empty slug from the label, then fill an empty `file_path` of a non-external
node with the computed default. -/
def ensureNode (nodes : List Node) (fuel : Nat) (n : Node) : Node :=
  let n := if n.slug = "" then { n with slug := slugify n.label } else n
  if n.kind ≠ "external" ∧ n.file_path = "" then
    { n with file_path := compute_default_file_path nodes fuel n }
  else n

/-- `ensure_paths` over the whole node dict.  The source mutates the dict in
place while iterating; ancestor lookups here read the pre-pass list, which
coincides with the source because the walk reads only `slug` and `parent_id`
fields (never updated for nodes built by `read_nodes`, whose slugs are never
empty) and `file_path` updates are never read by the walk. -/
def ensure_paths (nodes : List Node) (fuel : Nat) : List Node :=
  nodes.map (ensureNode nodes fuel)

/-- `landing_render_mode` (source lines 205-210): an explicit lowercased
`sidebar_as` of "text" or "section" wins; otherwise section when the node has
children, else text.  The second component reports the origin. -/
def landing_render_mode (node : Node) (has_children : Bool) : String × String :=
  let mode := strLower node.sidebar_as
  if mode = "text" ∨ mode = "section" then (mode, "explicit")
  else ((if has_children then "section" else "text"), "auto")

/-- The mode resolution inside `build_sidebar_contents` (source lines
217-220), reached for nodes of kind landing or section: a landing node asks
`landing_render_mode`, any other (section) is unconditionally "section". -/
def sidebarMode (n : Node) (has_children : Bool) : String :=
  if n.kind = "landing" then (landing_render_mode n has_children).1 else "section"

/-- `href` selection for a leaf entry: external nodes link to `external_url`,
others to `file_path` (source lines 233, 237, 241). -/
def hrefOf (n : Node) : String :=
  if n.kind = "external" then n.external_url else n.file_path

/-- `build_sidebar_contents` (source lines 212-244), producing the YAML lines
for one node of a sidebar.  Recursion over the children mapping is bounded by
`fuel` (the source recursion is unbounded on a cyclic children structure).
Child ids always resolve on Tree Builder output; the source would raise
`KeyError` on an unresolvable id, embedded as an empty contribution. -/
def build_sidebar_contents (nodes : List Node) (children : String → List String) :
    Nat → String → List String
  | 0, _ => []
  | fuel + 1, node_id =>
    match findNode nodes node_id with
    | none => []
    | some n =>
      let kids := children node_id
      if n.kind = "landing" ∨ n.kind = "section" then
        if sidebarMode n (!kids.isEmpty) = "section" then
          ["- section: \"" ++ n.label ++ "\""]
          ++ (if n.file_path ≠ "" then ["  href: " ++ n.file_path] else [])
          ++ (if !kids.isEmpty then
                "  contents:" ::
                kids.flatMap (fun cid =>
                  match findNode nodes cid with
                  | none => []
                  | some child =>
                    if child.kind = "landing" ∨ child.kind = "section" then
                      (build_sidebar_contents nodes children fuel cid).map ("    " ++ ·)
                    else
                      ["    - text: \"" ++ child.label ++ "\"",
                       "      href: " ++ hrefOf child])
              else [])
        else
          ["- text: \"" ++ n.label ++ "\"", "  href: " ++ hrefOf n]
      else
        ["- text: \"" ++ n.label ++ "\"", "  href: " ++ hrefOf n]

/-- `has_explicit_landing_child` (source line 275): some direct child of the
root is of kind landing. -/
def hasLandingChild (nodes : List Node) (children : String → List String)
    (rootId : String) : Bool :=
  (children rootId).any (fun cid =>
    match findNode nodes cid with
    | some c => c.kind == "landing"
    | none => false)

/-- The rendering of the direct children of a root inside its sidebar block
(source lines 282-290). -/
def rootChildLines (nodes : List Node) (children : String → List String)
    (fuel : Nat) (rootId : String) : List String :=
  (children rootId).flatMap (fun cid =>
    match findNode nodes cid with
    | none => []
    | some c =>
      if c.kind = "landing" ∨ c.kind = "section" then
        (build_sidebar_contents nodes children fuel cid).map ("        " ++ ·)
      else if c.kind = "item" ∨ c.kind = "external" then
        ["        - text: \"" ++ c.label ++ "\"",
         "          href: " ++ hrefOf c]
      else [])

/-- The sidebar block `build_yaml` emits for one root (source lines 266-291).
`sidebar_style`/`sidebar_background` are empty when unset (Python `None` and
`""` are both falsy there).  The default leaf for the root itself is inserted
right after `contents:` exactly when the root has a non-empty `file_path` and
no direct child of kind landing. -/
def rootSidebarBlock (nodes : List Node) (children : String → List String)
    (sidebar_style sidebar_background : String) (fuel : Nat) (root : Node) : List String :=
  ["    - title: \"" ++ root.label ++ "\""]
  ++ (if sidebar_style ≠ "" then ["      style: \"" ++ sidebar_style ++ "\""] else [])
  ++ (if sidebar_background ≠ "" then ["      background: " ++ sidebar_background] else [])
  ++ ["      contents:"]
  ++ (if root.file_path ≠ "" ∧ ¬hasLandingChild nodes children root.id then
       ["        - text: \"" ++ root.label ++ "\"",
        "          href: " ++ root.file_path]
     else [])
  ++ rootChildLines nodes children fuel root.id
  ++ [""]

/-- `build_yaml` (source lines 246-301): the whole configuration document as a
list of lines, later joined with newlines. -/
def build_yaml_lines (site_title : String) (roots : List Node) (nodes : List Node)
    (children : String → List String) (theme1 theme2 css : String) (toc : Bool)
    (sidebar_style sidebar_background : String) (fuel : Nat) : List String :=
  ["project:",
   "  pre-render:",
   "    - \"python generate_quarto_nav.py nodes.csv --yml-out _quarto.yml --create-stubs --sidebar-style docked --sidebar-background light\"",
   "  resources:",
   "    - nodes.csv",
   "    - page_content.csv",
   "  type: website",
   "",
   "website:",
   "  title: \"" ++ site_title ++ "\"",
   "  navbar:",
   "    left:"]
  ++ roots.flatMap (fun root =>
       ["      - text: \"" ++ root.label ++ "\""]
       ++ (if root.file_path ≠ "" then ["        href: " ++ root.file_path] else []))
  ++ ["", "  sidebar:"]
  ++ roots.flatMap (rootSidebarBlock nodes children sidebar_style sidebar_background fuel)
  ++ ["",
      "format:",
      "  html:",
      "    theme:",
      "      - " ++ theme1,
      "      - " ++ theme2,
      "    css: " ++ css,
      "    toc: " ++ (if toc then "true" else "false"),
      ""]

/-- `"\n".join(L).rstrip() + "\n"`, the final serialization of `build_yaml`. -/
def joinNl : List String → String
  | [] => ""
  | [x] => x
  | x :: y :: rest => x ++ "\n" ++ joinNl (y :: rest)

def build_yaml (site_title : String) (roots : List Node) (nodes : List Node)
    (children : String → List String) (theme1 theme2 css : String) (toc : Bool)
    (sidebar_style sidebar_background : String) (fuel : Nat) : String :=
  pyRstrip (joinNl (build_yaml_lines site_title roots nodes children theme1 theme2 css toc
      sidebar_style sidebar_background fuel)) ++ "\n"

/-- The local file system: an association list from path to text content. -/
abbrev FS := List (String × String)

/-- `os.path.exists`. -/
def existsFile (fs : FS) (path : String) : Bool := (List.lookup path fs).isSome

/-- Read a file if it exists. -/
def readFile (fs : FS) (path : String) : Option String := List.lookup path fs

/-- Create or overwrite a file (directory creation is immaterial here). -/
def fsWrite (fs : FS) (path content : String) : FS :=
  (path, content) :: fs.filter (fun kv => kv.1 ≠ path)

/-- Substring test on character lists (Python `needle in haystack`). -/
def hasSubstr (pat : List Char) : List Char → Bool
  | [] => pat.isEmpty
  | c :: rest => pat.isPrefixOf (c :: rest) || hasSubstr pat rest

/-- `file_has_autogen_flag` (source lines 360-368): the first 2000 characters
of the file contain `autogen: true`; an unreadable or missing file reads as
`False`. -/
def file_has_autogen_flag (fs : FS) (path : String) : Bool :=
  match readFile fs path with
  | none => false
  | some content => hasSubstr "autogen: true".data (strTake content 2000).data

/-- First non-empty of two strings (Python `a or b` on strings). -/
def strOr (a b : String) : String := if a = "" then b else a

/-- The optional front-matter grid block shared by both templates (source
lines 372-383 and 415-426): emitted only when some grid field is non-empty;
each field line is right-stripped and lines ending in `": "` are filtered
(after the strip no line does, so empty fields yield bare `name:` lines). -/
def gridLines (cfg : Row) : List String :=
  if rowGet cfg "grid_sidebar_width" ≠ "" ∨ rowGet cfg "grid_body_width" ≠ "" ∨
     rowGet cfg "grid_margin_width" ≠ "" ∨ rowGet cfg "grid_gutter_width" ≠ "" then
    (["format:",
      "  html:",
      "    grid:",
      pyRstrip ("      sidebar-width: " ++ rowGet cfg "grid_sidebar_width"),
      pyRstrip ("      body-width: " ++ rowGet cfg "grid_body_width"),
      pyRstrip ("      margin-width: " ++ rowGet cfg "grid_margin_width"),
      pyRstrip ("      gutter-width: " ++ rowGet cfg "grid_gutter_width")]).filter
      (fun ln => !strEndsWith ln ": ")
  else []

/-- One `<iframe ...>` html line. -/
def iframeLine (style height width src : String) : String :=
  "<iframe style=\"" ++ style ++ "\" height=\"" ++ height ++ "\" width=\"" ++ width
    ++ "\" src=\"" ++ src ++ "\"></iframe>"

/-- `render_single_iframe` (source lines 370-411). -/
def render_single_iframe (cfg : Row) (title : String) : String :=
  let fm := ["---", "title: \"" ++ title ++ "\"", "autogen: true"] ++ gridLines cfg ++ ["---"]
  let intro := pyStrip (rowGet cfg "intro_md")
  let layout := pyStrip (strOr (rowGet cfg "layout") "[ [1] ]")
  let src := strOr (rowGet cfg "iframe1_src") (rowGet cfg "iframe_src")
  let height := strOr (strOr (rowGet cfg "iframe1_height") (rowGet cfg "iframe_height")) "800"
  let width := strOr (strOr (rowGet cfg "iframe1_width") (rowGet cfg "iframe_width")) "100%"
  let style := strOr (strOr (rowGet cfg "iframe1_style") (rowGet cfg "iframe_style")) "border:none;"
  let body := (if intro ≠ "" then [intro, ""] else [])
    ++ ["::: \x7blayout=\"" ++ layout ++ "\"\x7d",
        "",
        "```\x7b=html\x7d",
        iframeLine style height width src,
        "```",
        "",
        ":::"]
  joinNl fm ++ "\n\n" ++ joinNl body ++ "\n"

/-- `render_doble_iframe` (source lines 413-464): two iframes; the first reuses
the legacy fallbacks, the second has only the `iframe2_*` keys. -/
def render_doble_iframe (cfg : Row) (title : String) : String :=
  let fm := ["---", "title: \"" ++ title ++ "\"", "autogen: true"] ++ gridLines cfg ++ ["---"]
  let intro := pyStrip (rowGet cfg "intro_md")
  let layout := pyStrip (strOr (rowGet cfg "layout") "[ [1,1] ]")
  let src1 := strOr (rowGet cfg "iframe1_src") (rowGet cfg "iframe_src")
  let height1 := strOr (strOr (rowGet cfg "iframe1_height") (rowGet cfg "iframe_height")) "800"
  let width1 := strOr (strOr (rowGet cfg "iframe1_width") (rowGet cfg "iframe_width")) "100%"
  let style1 := strOr (strOr (rowGet cfg "iframe1_style") (rowGet cfg "iframe_style")) "border:none;"
  let src2 := rowGet cfg "iframe2_src"
  let height2 := strOr (rowGet cfg "iframe2_height") "800"
  let width2 := strOr (rowGet cfg "iframe2_width") "100%"
  let style2 := strOr (rowGet cfg "iframe2_style") "border:none;"
  let body := (if intro ≠ "" then [intro, ""] else [])
    ++ ["::: \x7blayout=\"" ++ layout ++ "\"\x7d",
        "",
        "```\x7b=html\x7d",
        iframeLine style1 height1 width1 src1,
        "```",
        "",
        "```\x7b=html\x7d",
        iframeLine style2 height2 width2 src2,
        "```",
        "",
        ":::"]
  joinNl fm ++ "\n\n" ++ joinNl body ++ "\n"

/-- The text `write_stub` produces (source lines 186-203): minimal front
matter and either a list of child links (landing/section with a non-empty
link list) or a placeholder line. -/
def stubText (title : String) (is_landing : Bool)
    (children_links : Option (List (String × String))) (description : String) : String :=
  let front_matter := ["---", "title: \"" ++ title ++ "\""]
    ++ (if description ≠ "" then ["description: \"" ++ description ++ "\""] else [])
    ++ ["---"]
  let fm := joinNl front_matter ++ "\n\n"
  let body :=
    match children_links with
    | some (l :: ls) =>
      if is_landing then
        "## Contents\n\n"
          ++ String.join ((l :: ls).map (fun tl => "- [" ++ tl.1 ++ "](" ++ tl.2 ++ ")\n"))
          ++ "\n"
      else "Content for **" ++ title ++ "**.\n"
    | _ => "Content for **" ++ title ++ "**.\n"
  fm ++ body

/-- `write_stub` (source lines 182-203): writes the stub only when the target
does not exist yet; an existing file is left untouched, silently. -/
def write_stub (fs : FS) (page_path title : String) (is_landing : Bool)
    (children_links : Option (List (String × String))) (description : String) : FS :=
  if existsFile fs page_path then fs
  else fsWrite fs page_path (stubText title is_landing children_links description)

/-- `read_page_content` (source lines 343-358) applied to already-parsed rows:
keyed by id, empty ids skipped, later rows overwrite earlier ones. -/
def read_page_content (rows : List Row) : List (String × Row) :=
  rows.foldl (fun acc row =>
    let nid := rowGet row "id"
    if nid = "" then acc
    else if (List.lookup nid acc).isSome then
      acc.map (fun kv => if kv.1 == nid then (nid, row) else kv)
    else acc ++ [(nid, row)]) []

/-- The body of the `--create-stubs` loop for one node (source lines 521-564):
external or path-less nodes are skipped; a bound content row with template
`single_iframe` or `doble_iframe` is written through the autogen gate,
reporting a skip for an existing page without the marker; any other node falls
back to `write_stub`.  Returns the updated file system and the printed
messages. -/
def createStubsStep (content_by_id : List (String × Row)) (nodes : List Node)
    (children : String → List String) (fs : FS) (n : Node) : FS × List String :=
  if n.kind = "external" then (fs, [])
  else if n.file_path = "" then (fs, [])
  else
    let fp := n.file_path
    match List.lookup n.id content_by_id with
    | some cfg =>
      if rowGet cfg "template" = "single_iframe" then
        if !existsFile fs fp || file_has_autogen_flag fs fp then
          (fsWrite fs fp (render_single_iframe cfg n.label),
           ["Wrote content for " ++ fp ++ " (single_iframe)"])
        else (fs, ["Skip content write (manual page): " ++ fp])
      else if rowGet cfg "template" = "doble_iframe" then
        if !existsFile fs fp || file_has_autogen_flag fs fp then
          (fsWrite fs fp (render_doble_iframe cfg n.label),
           ["Wrote content for " ++ fp ++ " (doble_iframe)"])
        else (fs, ["Skip content write (manual page): " ++ fp])
      else
        let is_landing := n.kind = "landing" ∨ n.kind = "section"
        let children_links :=
          if is_landing ∧ children n.id ≠ [] then
            some ((children n.id).filterMap (fun cid =>
              (findNode nodes cid).map (fun child => (child.label, hrefOf child))))
          else none
        (write_stub fs fp n.label is_landing children_links n.description, [])
    | none =>
      let is_landing := n.kind = "landing" ∨ n.kind = "section"
      let children_links :=
        if is_landing ∧ children n.id ≠ [] then
          some ((children n.id).filterMap (fun cid =>
            (findNode nodes cid).map (fun child => (child.label, hrefOf child))))
        else none
      (write_stub fs fp n.label is_landing children_links n.description, [])

/-- The change-only YAML write in `main` (source lines 509-518): compare the
rendered text with the current file content byte for byte and rewrite only on
a difference. -/
def writeYamlStep (fs : FS) (yml_out yaml_text : String) : FS × List String :=
  if readFile fs yml_out = some yaml_text then (fs, [yml_out ++ " unchanged"])
  else (fsWrite fs yml_out yaml_text, ["Wrote " ++ yml_out])

/-- The command-line surface of `main` relevant to the pipeline. -/
structure Args where
  site_title : String
  yml_out : String
  create_stubs : Bool
  dry_run : Bool
  validateOnly : Bool
  sidebar_style : String
  sidebar_background : String
  theme1 : String
  theme2 : String
  css : String
  no_toc : Bool
deriving Repr

/-- `main` (source lines 466-564) as a pipeline from parsed navigation rows,
parsed content rows and a file system to a final file system plus printed
messages; a fatal validation error aborts the whole run with no output.
The root filter runs before `ensure_paths` as in the source; the roots passed
on to `build_yaml` are re-read from the path-completed node list, because the
source mutates the shared node dicts in place. -/
def runMain (a : Args) (rows contentRows : List Row) (fs : FS) (fuel : Nat) :
    Except NavError (FS × List String) :=
  match read_nodes rows with
  | .error e => .error e
  | .ok nodes =>
    if (find_roots nodes).isEmpty then .error .noRoots
    else
      let nodes2 := ensure_paths nodes fuel
      let content_by_id := read_page_content contentRows
      if a.validateOnly then .ok (fs, [])
      else
        let roots := (find_roots nodes2).insertionSort rootLE
        let yaml_text := build_yaml a.site_title roots nodes2 (childrenMap nodes)
          a.theme1 a.theme2 a.css (!a.no_toc) a.sidebar_style a.sidebar_background fuel
        let step1 := if a.dry_run then (fs, [yaml_text])
          else writeYamlStep fs a.yml_out yaml_text
        if a.create_stubs then
          .ok (nodes2.foldl (fun st n =>
            let r := createStubsStep content_by_id nodes2 (childrenMap nodes) st.1 n
            (r.1, st.2 ++ r.2)) step1)
        else .ok step1

/-! Concrete inputs used to instantiate the theorems: the worked example of the
documentation (a `Docs` navbar root with a `Guide` item child), a self-cyclic
record, and small degenerate inputs. -/

def docsRow : Row := [("id", "docs"), ("label", "Docs"), ("kind", "navbar"), ("order", "1")]

def guideRow : Row :=
  [("id", "guide"), ("label", "Guide"), ("kind", "item"), ("parent_id", "docs")]

def docsNode : Node := constructNode docsRow

def guideNode : Node := constructNode guideRow

def exNodes : List Node := [docsNode, guideNode]

/-- A record whose `parent_id` is its own id: a parent cycle. -/
def cycRow : Row := [("id", "a"), ("label", "A"), ("kind", "item"), ("parent_id", "a")]

def cycNode : Node := constructNode cycRow

/-- A record set with no navbar root (a single parentless item). -/
def noRootRow : Row := [("id", "solo"), ("label", "Solo"), ("kind", "item")]

/-- A record whose order field is the decimal representation of a negative
integer. -/
def negOrderRow : Row := [("id", "x"), ("label", "X"), ("kind", "item"), ("order", "-5")]

/-- Default command-line arguments (the argparse defaults plus
`--create-stubs`). -/
def defaultArgs : Args :=
  { site_title := "NESBp", yml_out := "_quarto.yml", create_stubs := true,
    dry_run := false, validateOnly := false, sidebar_style := "",
    sidebar_background := "", theme1 := "cosmo", theme2 := "brand",
    css := "styles.css", no_toc := false }

/-- `guideNode` after path derivation. -/
def guideNodeP : Node := ensureNode exNodes 2 guideNode

/-- A file system holding a manually-authored page (no autogen marker) at the
path of `guideNodeP`. -/
def manualFs : FS := [("docs/guide.qmd", "---\ntitle: Guide\n---\n\nHand-written notes.\n")]

/-- A content row binding a single_iframe template to the guide page. -/
def guideCfg : Row :=
  [("id", "guide"), ("template", "single_iframe"), ("iframe1_src", "https://x")]

/-- What the claim under test calls the decimal representation of an integer:
the string is exactly the decimal rendering of `z`.  (Spec-side definition,
used only to state a counterexample; the source tests `str.isdigit`.) -/
def specIsDecimalIntRepr (s : String) (z : Int) : Prop := s = toString z

/-- The worked example after path derivation. -/
def exNodesP : List Node := ensure_paths exNodes 2

/-- The sorted navbar roots of the worked example. -/
def exRoots : List Node := (find_roots exNodesP).insertionSort rootLE

/-- The configuration document rendered from the worked example. -/
def yamlEx : String :=
  build_yaml "NESBp" exRoots exNodesP (childrenMap exNodes) "cosmo" "brand" "styles.css"
    true "" "" 2

end GQNav

namespace GQNav

/-! ## Helper lemmas -/

theorem append_slash_ne (a b : String) : a ++ "/" ++ b ≠ "" := by
  intro h
  have h2 := congrArg String.length h
  rw [String.length_append, String.length_append] at h2
  have h1 : ("/" : String).length = 1 := rfl
  have h0 : ("" : String).length = 0 := rfl
  omega

theorem append_qmd_ne (s : String) : s ++ ".qmd" ≠ "" := by
  intro h
  have h2 := congrArg String.length h
  rw [String.length_append] at h2
  have h1 : (".qmd" : String).length = 4 := rfl
  have h0 : ("" : String).length = 0 := rfl
  omega

theorem joinSlash_cons₂ (x z : String) (rest : List String) :
    joinSlash (x :: z :: rest) = x ++ "/" ++ joinSlash (z :: rest) := rfl

theorem joinSlash_ne_of_last_ne :
    ∀ (xs : List String) (y : String), y ≠ "" → joinSlash (xs ++ [y]) ≠ ""
  | [], y, hy => by simpa [joinSlash] using hy
  | x :: xs, y, hy => by
    cases hxs : xs ++ [y] with
    | nil => exact absurd hxs (by simp)
    | cons z rest =>
      rw [List.cons_append, hxs, joinSlash_cons₂]
      exact append_slash_ne _ _

/-- On a chain that reaches a root, the fueled walk returns the chain for any
sufficient fuel. -/
theorem ancestorSlugs_of_chain {nodes : List Node} {pid : String} {anc : List String}
    (h : AncChain nodes pid anc) :
    ∀ {fuel : Nat}, anc.length ≤ fuel → ancestorSlugs nodes fuel pid = anc := by
  induction h with
  | nil =>
    intro fuel _
    cases fuel <;> simp [ancestorSlugs]
  | cons pid p rest hne hfind _ ih =>
    intro fuel hf
    cases fuel with
    | zero => simp at hf
    | succ f =>
      simp only [ancestorSlugs, if_neg hne, hfind]
      exact congrArg (p.slug :: ·) (ih (by simpa using Nat.lt_succ_iff.mp (Nat.lt_of_lt_of_le (Nat.lt_succ_self _) (by simpa using hf))))

theorem compute_default_eq {nodes : List Node} {fuel : Nat} {n : Node} {anc : List String}
    (hk : n.kind ≠ "external") (hchain : AncChain nodes n.parent_id anc)
    (hfuel : anc.length ≤ fuel) :
    compute_default_file_path nodes fuel n =
      if n.kind = "navbar" ∨ n.kind = "landing" ∨ n.kind = "section" then
        joinSlash (anc.reverse ++ [n.slug, "index.qmd"])
      else joinSlash (anc.reverse ++ [n.slug ++ ".qmd"]) := by
  unfold compute_default_file_path
  rw [if_neg hk, ancestorSlugs_of_chain hchain hfuel]
  by_cases h : n.kind = "navbar" ∨ n.kind = "landing" ∨ n.kind = "section"
  · rw [if_pos h, if_pos h, List.reverse_cons, List.append_assoc]
    rfl
  · rw [if_neg h, if_neg h, List.reverse_cons, List.dropLast_concat]

theorem compute_default_ne_empty {nodes : List Node} {fuel : Nat} {n : Node}
    (hk : n.kind ≠ "external") : compute_default_file_path nodes fuel n ≠ "" := by
  unfold compute_default_file_path
  rw [if_neg hk]
  by_cases h : n.kind = "navbar" ∨ n.kind = "landing" ∨ n.kind = "section"
  · rw [if_pos h]
    exact joinSlash_ne_of_last_ne _ _ (by decide)
  · rw [if_neg h]
    exact joinSlash_ne_of_last_ne _ _ (append_qmd_ne _)

/-! ## Claim theorems -/

/-- Claim C1: for a non-external node with empty `file_path` whose ancestor
chain (root-first once reversed) is `anc`, path derivation produces the
slash-joined path: navbar/landing/section nodes get
`<ancestors>/<own slug>/index.qmd`, other (item) nodes get
`<ancestors>/<own slug>.qmd`; external nodes never receive a derived
`file_path`; and every non-external node has a non-empty `file_path` after
derivation. -/
theorem C1_path_derivation :
    (∀ (nodes : List Node) (fuel : Nat) (n : Node) (anc : List String),
      n.kind ≠ "external" → n.file_path = "" →
      AncChain nodes n.parent_id anc → anc.length ≤ fuel →
      (ensureNode nodes fuel n).file_path =
        (if n.kind = "navbar" ∨ n.kind = "landing" ∨ n.kind = "section" then
          joinSlash (anc.reverse ++ [(if n.slug = "" then slugify n.label else n.slug), "index.qmd"])
        else
          joinSlash (anc.reverse ++ [(if n.slug = "" then slugify n.label else n.slug) ++ ".qmd"]))) ∧
    (∀ (nodes : List Node) (fuel : Nat) (n : Node), n.kind = "external" →
      (ensureNode nodes fuel n).file_path = n.file_path ∧
      compute_default_file_path nodes fuel n = "") ∧
    (∀ (nodes : List Node) (fuel : Nat) (n : Node), n.kind ≠ "external" →
      (ensureNode nodes fuel n).file_path ≠ "") := by
  refine ⟨?_, ?_, ?_⟩
  · intro nodes fuel n anc hk hf hchain hfuel
    unfold ensureNode
    by_cases hs : n.slug = ""
    · rw [if_pos hs, if_pos ⟨hk, hf⟩]
      rw [show ({ n with slug := slugify n.label } : Node).file_path = n.file_path from rfl] at hf
      have := @compute_default_eq nodes fuel { n with slug := slugify n.label } anc hk hchain hfuel
      simp only [this, hs, if_true]
    · rw [if_neg hs, if_pos ⟨hk, hf⟩]
      have := @compute_default_eq nodes fuel n anc hk hchain hfuel
      simp only [this, hs, if_false]
  · intro nodes fuel n hk
    constructor
    · unfold ensureNode
      by_cases hs : n.slug = "" <;> simp [hs, hk]
    · unfold compute_default_file_path
      rw [if_pos hk]
  · intro nodes fuel n hk
    unfold ensureNode
    by_cases hs : n.slug = ""
    · rw [if_pos hs]
      by_cases hf : n.file_path = ""
      · rw [if_pos ⟨hk, hf⟩]
        exact compute_default_ne_empty hk
      · rw [if_neg (by simp [hf])]
        exact hf
    · rw [if_neg hs]
      by_cases hf : n.file_path = ""
      · rw [if_pos ⟨hk, hf⟩]
        exact compute_default_ne_empty hk
      · rw [if_neg (by simp [hf])]
        exact hf

/-- Witness for C1 on the worked example: the `Guide` item under the `Docs`
root derives `docs/guide.qmd`. -/
theorem C1_path_derivation_witness :
    (ensureNode exNodes 2 guideNode).file_path = "docs/guide.qmd" := by
  have hfind : findNode exNodes "docs" = some docsNode := rfl
  have hchain : AncChain exNodes guideNode.parent_id ["docs"] :=
    AncChain.cons "docs" docsNode [] (by decide) hfind AncChain.nil
  have h := C1_path_derivation.1 exNodes 2 guideNode ["docs"] (by decide) rfl hchain (by simp)
  exact h.trans (by rfl)

/-- A parent chain in the self-cyclic node set never reaches a root. -/
theorem cyc_no_chain : ∀ {pid : String} {anc : List String},
    AncChain [cycNode] pid anc → pid ≠ "a" := by
  intro pid anc h
  induction h with
  | nil => decide
  | cons pid p rest hne hfind _ ih =>
    intro hpid
    subst hpid
    have hp : p = cycNode := by
      have : findNode [cycNode] "a" = some cycNode := rfl
      rw [this] at hfind
      exact (Option.some.inj hfind).symm
    exact ih (by rw [hp]; rfl)

/-- Claim C9: the ancestor walk terminates (with a fuel-independent value) for
every node whose parent chain reaches an empty `parent_id` in finitely many
steps; the Tree Builder accepts a self-cyclic `parent_id` (it only checks that
the referenced id exists), and on that input no finite chain exists, so
acyclicity is a necessary precondition for the walk to be total. -/
theorem C9_termination :
    (∀ (nodes : List Node) (pid : String) (anc : List String) (fuel : Nat),
      AncChain nodes pid anc → anc.length ≤ fuel → ancestorSlugs nodes fuel pid = anc) ∧
    read_nodes [cycRow] = .ok [cycNode] ∧
    (∀ anc : List String, ¬ AncChain [cycNode] "a" anc) := by
  refine ⟨fun nodes pid anc fuel h hf => ancestorSlugs_of_chain h hf, rfl, ?_⟩
  intro anc h
  exact cyc_no_chain h rfl

/-- Witness for C9: the fueled walk from `guide` in the worked example stops
at the root and returns the single ancestor slug, at any sufficient fuel. -/
theorem charListLE_total : ∀ as bs : List Char, charListLE as bs = true ∨ charListLE bs as = true
  | [], [] => Or.inl rfl
  | [], _ :: _ => Or.inl rfl
  | _ :: _, [] => Or.inr rfl
  | a :: as, b :: bs => by
    simp only [charListLE]
    rcases Nat.lt_trichotomy a.toNat b.toNat with h | h | h
    · exact Or.inl (by rw [if_pos h])
    · rcases charListLE_total as bs with hr | hr
      · exact Or.inl (by rw [if_neg (by omega), if_neg (by omega)]; exact hr)
      · exact Or.inr (by rw [if_neg (by omega), if_neg (by omega)]; exact hr)
    · exact Or.inr (by rw [if_pos h])

theorem charListLE_trans : ∀ as bs cs : List Char,
    charListLE as bs = true → charListLE bs cs = true → charListLE as cs = true
  | [], _, _, _, _ => rfl
  | _ :: _, [], _, h1, _ => by simp [charListLE] at h1
  | _ :: _, _ :: _, [], _, h2 => by simp [charListLE] at h2
  | a :: as, b :: bs, c :: cs, h1, h2 => by
    simp only [charListLE] at h1 h2 ⊢
    have e1 : a.toNat < b.toNat ∨ (a.toNat = b.toNat ∧ charListLE as bs = true) := by
      by_cases hab : a.toNat < b.toNat
      · exact Or.inl hab
      · by_cases hba : b.toNat < a.toNat
        · rw [if_neg hab, if_pos hba] at h1
          exact absurd h1 (by simp)
        · rw [if_neg hab, if_neg hba] at h1
          exact Or.inr ⟨by omega, h1⟩
    have e2 : b.toNat < c.toNat ∨ (b.toNat = c.toNat ∧ charListLE bs cs = true) := by
      by_cases hbc : b.toNat < c.toNat
      · exact Or.inl hbc
      · by_cases hcb : c.toNat < b.toNat
        · rw [if_neg hbc, if_pos hcb] at h2
          exact absurd h2 (by simp)
        · rw [if_neg hbc, if_neg hcb] at h2
          exact Or.inr ⟨by omega, h2⟩
    rcases e1 with h | ⟨he1, hr1⟩ <;> rcases e2 with h2x | ⟨he2, hr2⟩
    · rw [if_pos (by omega)]
    · rw [if_pos (by omega)]
    · rw [if_pos (by omega)]
    · rw [if_neg (by omega), if_neg (by omega)]
      exact charListLE_trans as bs cs hr1 hr2

theorem sibLE_total (nodes : List Node) : ∀ a b : String,
    SibLE nodes a b ∨ SibLE nodes b a := by
  intro a b
  unfold SibLE
  rcases Nat.lt_trichotomy (sibKey nodes a).1 (sibKey nodes b).1 with h | h | h
  · exact Or.inl (Or.inl h)
  · rcases charListLE_total (sibKey nodes a).2.data (sibKey nodes b).2.data with hr | hr
    · exact Or.inl (Or.inr ⟨h, hr⟩)
    · exact Or.inr (Or.inr ⟨h.symm, hr⟩)
  · exact Or.inr (Or.inl h)

theorem sibLE_trans (nodes : List Node) : ∀ a b c : String,
    SibLE nodes a b → SibLE nodes b c → SibLE nodes a c := by
  intro a b c h1 h2
  unfold SibLE at h1 h2 ⊢
  rcases h1 with h1 | ⟨h1e, h1r⟩ <;> rcases h2 with h2 | ⟨h2e, h2r⟩
  · exact Or.inl (by omega)
  · exact Or.inl (by omega)
  · exact Or.inl (by omega)
  · exact Or.inr ⟨by omega, charListLE_trans _ _ _ h1r h2r⟩

theorem findNode_isSome_iff {nodes : List Node} {nid : String} :
    (findNode nodes nid).isSome = true ↔ ∃ p ∈ nodes, p.id = nid := by
  unfold findNode
  simp [List.find?_isSome]

theorem findNode_isSome_false {nodes : List Node} {nid : String}
    (h : (findNode nodes nid).isSome = false) : ∀ m ∈ nodes, m.id ≠ nid := by
  intro m hm he
  rw [Bool.eq_false_iff] at h
  exact h (findNode_isSome_iff.mpr ⟨m, hm, he⟩)

theorem readRows_ok_nodup : ∀ (rows : List Row) (ln : Nat) (acc nodes : List Node),
    (acc.map Node.id).Nodup → readRows rows ln acc = .ok nodes → (nodes.map Node.id).Nodup
  | [], _, acc, nodes, hnd, h => by
    rw [show readRows [] _ acc = .ok acc from rfl] at h
    exact (Except.ok.inj h) ▸ hnd
  | row :: rest, ln, acc, nodes, hnd, h => by
    simp only [readRows] at h
    by_cases hb : rowIsBlank row = true
    · rw [if_pos hb] at h
      exact readRows_ok_nodup rest _ _ _ hnd h
    · rw [if_neg hb] at h
      by_cases hm : requiredMissing row ≠ []
      · rw [if_pos hm] at h
        exact absurd h (by simp)
      · rw [if_neg hm] at h
        by_cases hd : (findNode acc (rowGet row "id")).isSome = true
        · rw [if_pos hd] at h
          exact absurd h (by simp)
        · rw [if_neg hd] at h
          refine readRows_ok_nodup rest _ _ _ ?_ h
          rw [List.map_append, List.nodup_append]
          refine ⟨hnd, List.nodup_singleton _, ?_⟩
          intro x hx hx1
          have hx1 : x = (constructNode row).id := by simpa using hx1
          obtain ⟨m, hm2, hm3⟩ := List.mem_map.mp hx
          exact findNode_isSome_false (Bool.eq_false_iff.mpr hd) m hm2 (by
            rw [hm3, hx1]; rfl)

theorem readRows_ok_required : ∀ (rows : List Row) (ln : Nat) (acc nodes : List Node),
    readRows rows ln acc = .ok nodes →
    ∀ row ∈ rows, rowIsBlank row = false → requiredMissing row = []
  | [], _, _, _, _ => by intro row hrow; exact absurd hrow (by simp)
  | row :: rest, ln, acc, nodes, h => by
    intro r hr hblank
    simp only [readRows] at h
    by_cases hb : rowIsBlank row = true
    · rw [if_pos hb] at h
      rcases List.mem_cons.mp hr with he | hm
      · rw [he] at hblank
        rw [hb] at hblank
        exact absurd hblank (by simp)
      · exact readRows_ok_required rest _ _ _ h r hm hblank
    · rw [if_neg hb] at h
      by_cases hmiss : requiredMissing row ≠ []
      · rw [if_pos hmiss] at h
        exact absurd h (by simp)
      · rw [if_neg hmiss] at h
        by_cases hd : (findNode acc (rowGet row "id")).isSome = true
        · rw [if_pos hd] at h
          exact absurd h (by simp)
        · rw [if_neg hd] at h
          rcases List.mem_cons.mp hr with he | hm
          · rw [he]
            exact not_ne_iff.mp hmiss
          · exact readRows_ok_required rest _ _ _ h r hm hblank

theorem readRows_error_carries : ∀ (rows : List Row) (ln : Nat) (acc : List Node) (e : NavError),
    readRows rows ln acc = .error e → (errLine e).isSome = true ∨ errIds e ≠ []
  | [], _, _, _, h => by exact absurd h (by simp [readRows])
  | row :: rest, ln, acc, e, h => by
    simp only [readRows] at h
    by_cases hb : rowIsBlank row = true
    · rw [if_pos hb] at h
      exact readRows_error_carries rest _ _ _ h
    · rw [if_neg hb] at h
      by_cases hm : requiredMissing row ≠ []
      · rw [if_pos hm] at h
        cases Except.error.inj h
        exact Or.inl rfl
      · rw [if_neg hm] at h
        by_cases hd : (findNode acc (rowGet row "id")).isSome = true
        · rw [if_pos hd] at h
          cases Except.error.inj h
          exact Or.inl rfl
        · rw [if_neg hd] at h
          exact readRows_error_carries rest _ _ _ h

theorem checkParents_ok {nodes : List Node} : ∀ {l : List Node}, checkParents nodes l = .ok () →
    ∀ n ∈ l, n.parent_id ≠ "" → (findNode nodes n.parent_id).isSome = true := by
  intro l
  induction l with
  | nil => intro _ n hn; exact absurd hn (by simp)
  | cons m rest ih =>
    intro h n hn hpid
    simp only [checkParents] at h
    by_cases hc : m.parent_id ≠ "" ∧ (findNode nodes m.parent_id).isNone = true
    · rw [if_pos hc] at h
      exact absurd h (by simp)
    · rw [if_neg hc] at h
      rcases List.mem_cons.mp hn with he | hm
      · subst he
        rcases not_and_or.mp hc with hc1 | hc2
        · exact absurd hpid (by simpa using hc1)
        · simpa [Option.isNone_iff_eq_none, Option.isSome_iff_ne_none] using hc2
      · exact ih h n hm hpid

theorem checkParents_error_carries {nodes : List Node} : ∀ {l : List Node} {e : NavError},
    checkParents nodes l = .error e → (errLine e).isSome = true ∨ errIds e ≠ [] := by
  intro l
  induction l with
  | nil => intro e h; exact absurd h (by simp [checkParents])
  | cons m rest ih =>
    intro e h
    simp only [checkParents] at h
    by_cases hc : m.parent_id ≠ "" ∧ (findNode nodes m.parent_id).isNone = true
    · rw [if_pos hc] at h
      cases Except.error.inj h
      exact Or.inr (by simp [errIds])
    · rw [if_neg hc] at h
      exact ih h

theorem read_nodes_ok_inv {rows : List Row} {nodes : List Node}
    (h : read_nodes rows = .ok nodes) :
    readRows rows 2 [] = .ok nodes ∧ checkParents nodes nodes = .ok () := by
  unfold read_nodes at h
  split at h
  · exact absurd h (by simp)
  · next ns heq =>
    split at h
    · exact absurd h (by simp)
    · next u heq2 =>
      cases u
      cases Except.ok.inj h
      exact ⟨heq, heq2⟩

/-- Claim C6: on a record set that validates (unique ids, valid parent
references), the Tree Builder's parent-to-children mapping only lists parents
that exist among the nodes, the listed children are exactly nodes carrying
that parent id, and every sibling list is sorted by order ascending then
lowercased label ascending. -/
theorem C6_tree_builder :
    ∀ (rows : List Row) (nodes : List Node), read_nodes rows = .ok nodes →
      (∀ pid : String, childrenMap nodes pid ≠ [] → ∃ p ∈ nodes, p.id = pid) ∧
      (∀ pid : String, List.Sorted (SibLE nodes) (childrenMap nodes pid)) ∧
      (∀ pid cid : String, cid ∈ childrenMap nodes pid →
        ∃ c ∈ nodes, c.id = cid ∧ c.parent_id = pid) := by
  intro rows nodes h
  have hinv := read_nodes_ok_inv h
  have hmem : ∀ pid cid, cid ∈ childrenMap nodes pid →
      pid ≠ "" ∧ ∃ c ∈ nodes, c.id = cid ∧ c.parent_id = pid := by
    intro pid cid hm
    unfold childrenMap at hm
    by_cases hp : pid = ""
    · rw [if_pos hp] at hm
      exact absurd hm (by simp)
    · rw [if_neg hp] at hm
      refine ⟨hp, ?_⟩
      have hm2 := (List.mem_insertionSort (SibLE nodes)).mp hm
      obtain ⟨c, hc, hcid⟩ := List.mem_map.mp hm2
      obtain ⟨hcn, hcp⟩ := List.mem_filter.mp hc
      exact ⟨c, hcn, hcid, by simpa using hcp⟩
  refine ⟨?_, ?_, ?_⟩
  · intro pid hne
    obtain ⟨cid, hcid⟩ := List.exists_mem_of_ne_nil _ hne
    obtain ⟨hp, c, hcn, _, hcp⟩ := hmem pid cid hcid
    have := checkParents_ok hinv.2 c hcn (by rw [hcp]; exact hp)
    rw [hcp] at this
    exact findNode_isSome_iff.mp this
  · intro pid
    unfold childrenMap
    by_cases hp : pid = ""
    · rw [if_pos hp]
      exact List.sorted_nil
    · rw [if_neg hp]
      haveI : IsTotal String (SibLE nodes) := ⟨sibLE_total nodes⟩
      haveI : IsTrans String (SibLE nodes) := ⟨sibLE_trans nodes⟩
      exact List.sorted_insertionSort (SibLE nodes) _
  · intro pid cid hm
    exact (hmem pid cid hm).2

/-- Witness for C6 on the worked example: the children of `docs` are sorted
and their parent exists. -/
theorem C6_tree_builder_witness :
    List.Sorted (SibLE exNodes) (childrenMap exNodes "docs") ∧
      (∃ p ∈ exNodes, p.id = "docs") := by
  have h := C6_tree_builder [docsRow, guideRow] exNodes rfl
  exact ⟨h.2.1 "docs", h.1 "docs" (by decide)⟩

/-- Claim C7 (amended): a duplicate id, a missing parent reference or a
missing required field makes node reading fail (contrapositive: a successful
read has pairwise distinct ids, only valid parent references, and no
non-blank row with a missing required field), a read failure or an empty root
set aborts the whole run with no output, and the reading errors carry the
offending id or line number; the zero-roots error carries neither. -/
theorem C7_fatal_validation :
    (∀ (rows : List Row) (nodes : List Node), read_nodes rows = .ok nodes →
      (nodes.map Node.id).Nodup) ∧
    (∀ (rows : List Row) (nodes : List Node), read_nodes rows = .ok nodes →
      ∀ n ∈ nodes, n.parent_id ≠ "" → ∃ p ∈ nodes, p.id = n.parent_id) ∧
    (∀ (rows : List Row) (nodes : List Node), read_nodes rows = .ok nodes →
      ∀ row ∈ rows, rowIsBlank row = false → requiredMissing row = []) ∧
    (∀ (a : Args) (rows contentRows : List Row) (fs : FS) (fuel : Nat) (e : NavError),
      read_nodes rows = .error e → runMain a rows contentRows fs fuel = .error e) ∧
    (∀ (a : Args) (rows contentRows : List Row) (fs : FS) (fuel : Nat) (nodes : List Node),
      read_nodes rows = .ok nodes → find_roots nodes = [] →
      runMain a rows contentRows fs fuel = .error .noRoots) ∧
    (∀ (rows : List Row) (e : NavError), read_nodes rows = .error e →
      (errLine e).isSome = true ∨ errIds e ≠ []) := by
  refine ⟨?_, ?_, ?_, ?_, ?_, ?_⟩
  · intro rows nodes h
    exact readRows_ok_nodup rows 2 [] nodes (by simp) (read_nodes_ok_inv h).1
  · intro rows nodes h n hn hp
    exact findNode_isSome_iff.mp (checkParents_ok (read_nodes_ok_inv h).2 n hn hp)
  · intro rows nodes h
    exact readRows_ok_required rows 2 [] nodes (read_nodes_ok_inv h).1
  · intro a rows contentRows fs fuel e h
    unfold runMain
    rw [h]
  · intro a rows contentRows fs fuel nodes h hroots
    unfold runMain
    rw [h]
    simp [hroots]
  · intro rows e h
    unfold read_nodes at h
    split at h
    · next e2 heq =>
      cases Except.error.inj h
      exact readRows_error_carries rows 2 [] e heq
    · next ns heq =>
      split at h
      · next e2 heq2 =>
        cases Except.error.inj h
        exact checkParents_error_carries heq2
      · exact absurd h (by simp)

/-- Witness for C7 on the worked example: a successful read has unique ids
(so duplicates necessarily abort), and a read error propagates out of the
whole run. -/
theorem C7_fatal_validation_witness :
    (exNodes.map Node.id).Nodup ∧
      runMain defaultArgs [guideRow] [] [] 3 = .error (.parentNotFound "docs" "guide") := by
  constructor
  · exact C7_fatal_validation.1 [docsRow, guideRow] exNodes rfl
  · exact C7_fatal_validation.2.2.2.1 defaultArgs [guideRow] [] [] 3
      (.parentNotFound "docs" "guide") rfl

/-- Counterexample for C7 as stated: a record set with no navbar root aborts
the run with the zero-roots error, whose message (`No root navbar nodes
found (kind=navbar & empty parent_id).`) names neither an offending id nor a
line number. -/
theorem C7_counterexample :
    runMain defaultArgs [noRootRow] [] [] 3 = .error .noRoots ∧
      errLine .noRoots = none ∧ errIds .noRoots = [] :=
  ⟨rfl, rfl, rfl⟩

theorem toNat_ofNat_valid (n : Nat) (h : n.isValidChar) : (Char.ofNat n).toNat = n := by
  rw [Char.ofNat, dif_pos h]
  rfl

theorem char_toLower_toNat (c : Char) :
    (Char.toLower c).toNat = if c.toNat ≥ 65 ∧ c.toNat ≤ 90 then c.toNat + 32 else c.toNat := by
  show (if c.toNat ≥ 65 ∧ c.toNat ≤ 90 then Char.ofNat (c.toNat + 32) else c).toNat =
    if c.toNat ≥ 65 ∧ c.toNat ≤ 90 then c.toNat + 32 else c.toNat
  by_cases h : c.toNat ≥ 65 ∧ c.toNat ≤ 90
  · rw [if_pos h, if_pos h]
    exact toNat_ofNat_valid _ (Or.inl (by omega))
  · rw [if_neg h, if_neg h]

theorem char_toLower_idem (c : Char) : Char.toLower (Char.toLower c) = Char.toLower c := by
  have h1 := char_toLower_toNat c
  show (if (Char.toLower c).toNat ≥ 65 ∧ (Char.toLower c).toNat ≤ 90 then
      Char.ofNat ((Char.toLower c).toNat + 32) else Char.toLower c) = Char.toLower c
  rw [if_neg ?_]
  rintro ⟨ha, hb⟩
  rw [h1] at ha hb
  by_cases h : c.toNat ≥ 65 ∧ c.toNat ≤ 90
  · rw [if_pos h] at ha hb
    omega
  · rw [if_neg h] at ha hb
    exact h ⟨ha, hb⟩

/-- Lowercasing is idempotent, so the lowercasing at node construction makes
the second lowercasing inside `landing_render_mode` a no-op. -/
theorem strLower_idem (s : String) : strLower (strLower s) = strLower s := by
  unfold strLower
  refine congrArg String.mk ?_
  rw [List.map_map]
  exact List.map_congr_left (fun a _ => char_toLower_idem a)

/-- Claim C2: for a landing node, an explicit `sidebar_as` of "text" or
"section" is used as given (never overridden, whatever the children); any
other value falls through to the automatic rule, section when the node has
children and text when it has none; and a node of kind section always
resolves to section mode. -/
theorem C2_landing_mode :
    (∀ (n : Node) (k : Bool), n.kind = "landing" →
      (n.sidebar_as = "text" ∨ n.sidebar_as = "section") →
      landing_render_mode n k = (n.sidebar_as, "explicit")) ∧
    (∀ (n : Node) (k : Bool), n.kind = "landing" →
      strLower n.sidebar_as ≠ "text" → strLower n.sidebar_as ≠ "section" →
      landing_render_mode n k = ((if k then "section" else "text"), "auto")) ∧
    (∀ (n : Node) (k : Bool), n.kind = "section" → sidebarMode n k = "section") := by
  refine ⟨?_, ?_, ?_⟩
  · intro n k _ hs
    show (if strLower n.sidebar_as = "text" ∨ strLower n.sidebar_as = "section"
        then (strLower n.sidebar_as, "explicit")
        else ((if k then "section" else "text"), "auto")) = (n.sidebar_as, "explicit")
    rcases hs with h | h <;> rw [h] <;>
      first
      | rw [if_pos (Or.inl (by decide)), show strLower "text" = "text" from by decide]
      | rw [if_pos (Or.inr (by decide)), show strLower "section" = "section" from by decide]
  · intro n k _ ht hs
    show (if strLower n.sidebar_as = "text" ∨ strLower n.sidebar_as = "section"
        then (strLower n.sidebar_as, "explicit")
        else ((if k then "section" else "text"), "auto")) = ((if k then "section" else "text"), "auto")
    rw [if_neg (by rintro (h | h); exacts [ht h, hs h])]
  · intro n k hk
    unfold sidebarMode
    rw [if_neg (by rw [hk]; decide)]

/-- Witness for C2: a landing node constructed with `sidebar_as = "TeXT"` and
children still renders as a text leaf (explicit value kept), and a childless
section node still resolves to section mode. -/
theorem C2_landing_mode_witness :
    landing_render_mode (constructNode [("id", "l"), ("label", "L"), ("kind", "landing"),
      ("sidebar_as", "TeXT")]) true = ("text", "explicit") ∧
    sidebarMode (constructNode [("id", "s"), ("label", "S"), ("kind", "section")]) false
      = "section" := by
  constructor
  · exact (C2_landing_mode.1 _ true rfl (Or.inl rfl)).trans rfl
  · exact C2_landing_mode.2.2 _ false rfl

/-- Claim C10: `sidebar_as` is lowercased at construction, and for a landing
node any input value whose lowercased form is not exactly "text" or "section"
is treated like an unset value: the mode falls through to the automatic
children-based rule. -/
theorem C10_case_insensitive :
    (∀ row : Row, (constructNode row).sidebar_as = strLower (rowGet row "sidebar_as")) ∧
    (∀ (row : Row) (k : Bool), (constructNode row).kind = "landing" →
      strLower (rowGet row "sidebar_as") ≠ "text" →
      strLower (rowGet row "sidebar_as") ≠ "section" →
      landing_render_mode (constructNode row) k
        = ((if k then "section" else "text"), "auto")) := by
  refine ⟨fun row => rfl, ?_⟩
  intro row k _ ht hs
  have hlow : strLower (constructNode row).sidebar_as = strLower (rowGet row "sidebar_as") :=
    strLower_idem (rowGet row "sidebar_as")
  show (if strLower (constructNode row).sidebar_as = "text"
        ∨ strLower (constructNode row).sidebar_as = "section"
      then (strLower (constructNode row).sidebar_as, "explicit")
      else ((if k then "section" else "text"), "auto")) = ((if k then "section" else "text"), "auto")
  rw [hlow, if_neg (by rintro (h | h); exacts [ht h, hs h])]

/-- Witness for C10: value "Auto " (here already value-stripped to "auto")
lowercases to "auto", which is neither "text" nor "section", so a childless
landing node resolves to text, a child-bearing one to section. -/
theorem C10_case_insensitive_witness :
    landing_render_mode (constructNode [("id", "l"), ("label", "L"), ("kind", "landing"),
      ("sidebar_as", "Auto")]) false = ("text", "auto") :=
  (C10_case_insensitive.2
    [("id", "l"), ("label", "L"), ("kind", "landing"), ("sidebar_as", "Auto")]
    false rfl (by decide) (by decide)).trans rfl

/-- Claim C8 (amended): a constructed node's order is the decimal value of the
`order` field when that field is a nonempty string of decimal digits, and 999
otherwise (missing, negative, or otherwise non-numeric). -/
theorem C8_order_amended : ∀ row : Row,
    (isDigitStr (rowGet row "order") = true →
      (constructNode row).order = decimalValue (rowGet row "order")) ∧
    (isDigitStr (rowGet row "order") = false → (constructNode row).order = 999) := by
  intro row
  constructor <;> intro h <;>
    show (if isDigitStr (rowGet row "order") then decimalValue (rowGet row "order") else 999) = _
  · rw [if_pos h]
  · rw [if_neg (by simp [h])]

/-- Witness for C8: a digit field "1" gives order 1, and the missing field of
the guide row gives 999. -/
theorem C8_order_amended_witness :
    (constructNode docsRow).order = 1 ∧ (constructNode guideRow).order = 999 :=
  ⟨((C8_order_amended docsRow).1 (by decide)).trans (by decide),
   (C8_order_amended guideRow).2 (by decide)⟩

/-- Counterexample for C8 as stated: "-5" is the decimal representation of the
integer -5, yet the constructed order is 999, not -5 (the source tests
`str.isdigit`, which rejects a leading minus sign). -/
theorem C8_counterexample :
    specIsDecimalIntRepr "-5" (-5) ∧ ((constructNode negOrderRow).order : Int) = 999 ∧
      ((-5 : Int) ≠ 999) :=
  ⟨rfl, rfl, by decide⟩

theorem C9_termination_witness :
    ancestorSlugs exNodes 7 "docs" = ["docs"] := by
  have hfind : findNode exNodes "docs" = some docsNode := rfl
  have hchain : AncChain exNodes "docs" ["docs"] :=
    AncChain.cons "docs" docsNode [] (by decide) hfind AncChain.nil
  exact C9_termination.1 exNodes "docs" ["docs"] 7 hchain (by simp)

theorem readFile_fsWrite (fs : FS) (p c : String) : readFile (fsWrite fs p c) p = some c := by
  simp [readFile, fsWrite, List.lookup]

/-- Claim C4: the configuration text is a function of the node and content
inputs alone (the second run recomputes it from unchanged inputs and obtains
the same bytes), and the rendered text is compared byte-for-byte with the
existing file before writing: a matching file is left untouched, and a second
run right after a write reports the file unchanged and does not rewrite it. -/
theorem C4_yaml_idempotent :
    ∀ (fs : FS) (yml_out site_title : String) (roots nodes : List Node)
      (children : String → List String) (theme1 theme2 css : String) (toc : Bool)
      (ss sb : String) (fuel : Nat) (y : String),
      y = build_yaml site_title roots nodes children theme1 theme2 css toc ss sb fuel →
      (readFile fs yml_out = some y →
        writeYamlStep fs yml_out y = (fs, [yml_out ++ " unchanged"])) ∧
      writeYamlStep (writeYamlStep fs yml_out y).1 yml_out
          (build_yaml site_title roots nodes children theme1 theme2 css toc ss sb fuel) =
        ((writeYamlStep fs yml_out y).1, [yml_out ++ " unchanged"]) := by
  intro fs yml_out site_title roots nodes children theme1 theme2 css toc ss sb fuel y hy
  constructor
  · intro h
    unfold writeYamlStep
    rw [if_pos h]
  · rw [← hy]
    by_cases h : readFile fs yml_out = some y
    · unfold writeYamlStep
      rw [if_pos h]
      rw [if_pos h]
    · unfold writeYamlStep
      rw [if_neg h]
      rw [if_pos (readFile_fsWrite fs yml_out y)]

/-- Witness for C4 on the worked example: writing the rendered document into
an empty file system and re-running the write step with the re-rendered text
leaves the file system unchanged and reports it unchanged. -/
theorem C4_yaml_idempotent_witness :
    writeYamlStep (writeYamlStep [] "_quarto.yml" yamlEx).1 "_quarto.yml" yamlEx =
      ((writeYamlStep [] "_quarto.yml" yamlEx).1, ["_quarto.yml" ++ " unchanged"]) :=
  (C4_yaml_idempotent [] "_quarto.yml" "NESBp" exRoots exNodesP (childrenMap exNodes)
    "cosmo" "brand" "styles.css" true "" "" 2 yamlEx rfl).2

/-- Claim C5: in a root sidebar block, the default leaf entry for the root
itself (its label and file path) appears immediately after `contents:` if and
only if the root has a non-empty `file_path` and none of its direct children
is of kind landing; otherwise the block goes straight to the rendered
children. -/
theorem C5_default_root_leaf :
    ∀ (nodes : List Node) (children : String → List String) (ss sb : String)
      (fuel : Nat) (root : Node),
      (root.file_path ≠ "" ∧ hasLandingChild nodes children root.id = false →
        rootSidebarBlock nodes children ss sb fuel root =
          ["    - title: \"" ++ root.label ++ "\""]
          ++ (if ss ≠ "" then ["      style: \"" ++ ss ++ "\""] else [])
          ++ (if sb ≠ "" then ["      background: " ++ sb] else [])
          ++ ["      contents:"]
          ++ ["        - text: \"" ++ root.label ++ "\"",
              "          href: " ++ root.file_path]
          ++ rootChildLines nodes children fuel root.id
          ++ [""]) ∧
      (root.file_path = "" ∨ hasLandingChild nodes children root.id = true →
        rootSidebarBlock nodes children ss sb fuel root =
          ["    - title: \"" ++ root.label ++ "\""]
          ++ (if ss ≠ "" then ["      style: \"" ++ ss ++ "\""] else [])
          ++ (if sb ≠ "" then ["      background: " ++ sb] else [])
          ++ ["      contents:"]
          ++ rootChildLines nodes children fuel root.id
          ++ [""]) := by
  intro nodes children ss sb fuel root
  constructor
  · rintro ⟨h1, h2⟩
    have hc : root.file_path ≠ "" ∧ ¬(hasLandingChild nodes children root.id = true) :=
      ⟨h1, by rw [h2]; simp⟩
    unfold rootSidebarBlock
    rw [if_pos hc]
  · intro h
    have hc : ¬(root.file_path ≠ "" ∧ ¬(hasLandingChild nodes children root.id = true)) := by
      rcases h with h | h
      · exact fun hcon => hcon.1 h
      · exact fun hcon => hcon.2 h
    unfold rootSidebarBlock
    rw [if_neg hc]
    simp

/-- Witness for C5 on the worked example: the `docs` root has a derived
`file_path` and no landing child, so its sidebar block carries the default
leaf right after `contents:`. -/
theorem C5_default_root_leaf_witness :
    rootSidebarBlock exNodesP (childrenMap exNodes) "" "" 2 (ensureNode exNodes 2 docsNode) =
      ["    - title: \"Docs\"",
       "      contents:",
       "        - text: \"Docs\"",
       "          href: docs/index.qmd",
       "        - text: \"Guide\"",
       "          href: docs/guide.qmd",
       ""] := by
  have h := (C5_default_root_leaf exNodesP (childrenMap exNodes) "" "" 2
    (ensureNode exNodes 2 docsNode)).1 ⟨by decide, by decide⟩
  exact h.trans (by decide)

/-- Claim C3 (amended): under page creation, a non-external node with a
non-empty path and a bound single_iframe or doble_iframe content row is
(re)written exactly when the target does not exist or carries the autogen
marker, and an existing page without the marker is skipped with a reported
message; without such a content row the stub fallback writes only when the
file is missing and skips silently otherwise; in every case an existing page
lacking the marker is never modified. -/
theorem C3_write_gating :
    (∀ (content_by_id : List (String × Row)) (nodes : List Node)
       (children : String → List String) (fs : FS) (n : Node) (cfg : Row),
      n.kind ≠ "external" → n.file_path ≠ "" →
      List.lookup n.id content_by_id = some cfg →
      (rowGet cfg "template" = "single_iframe" ∨ rowGet cfg "template" = "doble_iframe") →
      (existsFile fs n.file_path = true → file_has_autogen_flag fs n.file_path = false →
        createStubsStep content_by_id nodes children fs n =
          (fs, ["Skip content write (manual page): " ++ n.file_path])) ∧
      (existsFile fs n.file_path = false ∨ file_has_autogen_flag fs n.file_path = true →
        createStubsStep content_by_id nodes children fs n =
          (if rowGet cfg "template" = "single_iframe" then
            (fsWrite fs n.file_path (render_single_iframe cfg n.label),
             ["Wrote content for " ++ n.file_path ++ " (single_iframe)"])
           else
            (fsWrite fs n.file_path (render_doble_iframe cfg n.label),
             ["Wrote content for " ++ n.file_path ++ " (doble_iframe)"])))) ∧
    (∀ (content_by_id : List (String × Row)) (nodes : List Node)
       (children : String → List String) (fs : FS) (n : Node),
      n.kind ≠ "external" → n.file_path ≠ "" →
      (∀ cfg, List.lookup n.id content_by_id = some cfg →
        rowGet cfg "template" ≠ "single_iframe" ∧ rowGet cfg "template" ≠ "doble_iframe") →
      existsFile fs n.file_path = true →
      createStubsStep content_by_id nodes children fs n = (fs, [])) ∧
    (∀ (content_by_id : List (String × Row)) (nodes : List Node)
       (children : String → List String) (fs : FS) (n : Node),
      existsFile fs n.file_path = true → file_has_autogen_flag fs n.file_path = false →
      (createStubsStep content_by_id nodes children fs n).1 = fs) := by
  refine ⟨?_, ?_, ?_⟩
  · intro content_by_id nodes children fs n cfg hk hp hcfg htm
    unfold createStubsStep
    rw [if_neg hk, if_neg hp, hcfg]
    dsimp only
    constructor
    · intro hex hflag
      have hcw : ¬((!existsFile fs n.file_path || file_has_autogen_flag fs n.file_path) = true) := by
        simp [hex, hflag]
      rcases htm with ht | ht
      · rw [if_pos ht, if_neg hcw]
      · have hne : ¬(rowGet cfg "template" = "single_iframe") := by
          rw [ht]
          decide
        rw [if_neg hne, if_pos ht, if_neg hcw]
    · intro hcan
      have hcw : (!existsFile fs n.file_path || file_has_autogen_flag fs n.file_path) = true := by
        rcases hcan with h | h <;> simp [h]
      rcases htm with ht | ht
      · rw [if_pos ht, if_pos hcw, if_pos ht]
      · have hne : ¬(rowGet cfg "template" = "single_iframe") := by
          rw [ht]
          decide
        rw [if_neg hne, if_pos ht, if_pos hcw, if_neg hne]
  · intro content_by_id nodes children fs n hk hp hother hex
    unfold createStubsStep
    rw [if_neg hk, if_neg hp]
    cases hcfg : List.lookup n.id content_by_id with
    | none =>
      unfold write_stub
      dsimp only
      rw [if_pos hex]
    | some cfg =>
      obtain ⟨h1, h2⟩ := hother cfg hcfg
      unfold write_stub
      dsimp only
      rw [if_neg h1, if_neg h2, if_pos hex]
  · intro content_by_id nodes children fs n hex hflag
    unfold createStubsStep
    by_cases hk : n.kind = "external"
    · rw [if_pos hk]
    · rw [if_neg hk]
      by_cases hp : n.file_path = ""
      · rw [if_pos hp]
      · rw [if_neg hp]
        have hcw : ¬((!existsFile fs n.file_path || file_has_autogen_flag fs n.file_path) = true) := by
          simp [hex, hflag]
        cases hcfg : List.lookup n.id content_by_id with
        | none =>
          unfold write_stub
          dsimp only
          rw [if_pos hex]
        | some cfg =>
          unfold write_stub
          dsimp only
          by_cases h1 : rowGet cfg "template" = "single_iframe"
          · rw [if_pos h1, if_neg hcw]
          · rw [if_neg h1]
            by_cases h2 : rowGet cfg "template" = "doble_iframe"
            · rw [if_pos h2, if_neg hcw]
            · rw [if_neg h2, if_pos hex]

/-- Witness for C3: on a file system holding a manually-authored guide page, a
bound single_iframe row is skipped with the reported message, and the same
row writes the page into an empty file system. -/
theorem C3_write_gating_witness :
    createStubsStep [("guide", guideCfg)] exNodesP (childrenMap exNodes) manualFs guideNodeP =
      (manualFs, ["Skip content write (manual page): docs/guide.qmd"]) := by
  have h := ((C3_write_gating.1 [("guide", guideCfg)] exNodesP (childrenMap exNodes)
    manualFs guideNodeP guideCfg (by decide) (by decide) rfl (Or.inl rfl)).1 rfl rfl)
  exact h.trans (by decide)

/-- Counterexample for C3 as stated: with no content row bound, the stub
fallback on an existing page without the autogen marker skips the write but
reports nothing, so the skip is not reported for the generic stub fallback. -/
theorem C3_counterexample :
    existsFile manualFs guideNodeP.file_path = true ∧
      file_has_autogen_flag manualFs guideNodeP.file_path = false ∧
      createStubsStep [] exNodesP (childrenMap exNodes) manualFs guideNodeP = (manualFs, []) :=
  ⟨rfl, rfl, rfl⟩

end GQNav
